import Mathlib

/-!
Verification of the oil-price scraper (`scraper.py`, `main.py`,
`credentials.py`, `src/credentials.py`, `provider.py`).

The Python program is shallowly embedded:

* `Scraper._sanitize_price_string` is embedded character-list by
  character-list.  Each `str.replace(pat, rep)` call becomes a dedicated
  structural recursion (`remKr`, `remCm`, `remDot`, `commaToDot`, `remSp`)
  with Python's left-to-right, non-overlapping, non-rescanning semantics.
  Python's `float()` is embedded as `pyFloat?`, a parser into `ℚ` covering
  the decimal-literal fragment relevant to the scraper's inputs
  (optional sign, digits, one optional decimal point, optional exponent;
  the `inf`/`nan`/underscore/whitespace forms of `float()` never arise
  from sanitized price strings considered here).  The `ValueError` raised
  by `float()` carries the string it was given — the sanitized string —
  and the re-raise in `_sanitize_price_string` wraps that message, so the
  embedded normalizer's error payload is the sanitized character list.

* The network is embedded as an environment `Env` of response statuses and
  payloads, and a run produces a trace of `Event`s (one per HTTP request the
  program issues).  `datetime.now()` is embedded as a start instant plus a
  nonnegative elapsed duration.

* `asyncio.gather` (without `return_exceptions`) does not cancel sibling
  tasks; the model lets every provider task run to completion and the
  first uncaught exception then propagates, so a run's trace contains all
  tasks' events while the run's completion flag records whether any task
  raised.
-/

set_option autoImplicit false

deriving instance DecidableEq for Except

/-- Embedding of Python `s.replace("kr.", "")`: scan left to right, drop each
non-overlapping occurrence of the three characters `k`, `r`, `.`. -/
def remKr : List Char → List Char
  | [] => []
  | [c] => [c]
  | [c, d] => [c, d]
  | c :: d :: e :: s =>
    if c = 'k' ∧ d = 'r' ∧ e = '.' then remKr s
    else c :: remKr (d :: e :: s)

/-- Embedding of Python `s.replace(",-", "")`. -/
def remCm : List Char → List Char
  | [] => []
  | [c] => [c]
  | c :: d :: s =>
    if c = ',' ∧ d = '-' then remCm s
    else c :: remCm (d :: s)

/-- Embedding of Python `s.replace(".", "")`. -/
def remDot : List Char → List Char
  | [] => []
  | c :: s => if c = '.' then remDot s else c :: remDot s

/-- Embedding of Python `s.replace(",", ".")`. -/
def commaToDot : List Char → List Char
  | [] => []
  | c :: s => (if c = ',' then '.' else c) :: commaToDot s

/-- Embedding of Python `s.replace(" ", "")`. -/
def remSp : List Char → List Char
  | [] => []
  | c :: s => if c = ' ' then remSp s else c :: remSp s

/-- The cleaning chain of `Scraper._sanitize_price_string`, in source order:
remove `"kr."`, remove `",-"`, remove `"."`, replace `","` by `"."`,
remove `" "`. -/
def sanitizeChars (s : List Char) : List Char :=
  remSp (commaToDot (remDot (remCm (remKr s))))

/-- Optional leading sign of a Python float literal. -/
def splitSign : List Char → Bool × List Char
  | [] => (false, [])
  | c :: cs =>
    if c = '-' then (true, cs)
    else if c = '+' then (false, cs)
    else (false, c :: cs)

/-- Numeric value of a digit string, most significant digit first. -/
def natOfDigits (ds : List Char) : ℕ :=
  ds.foldl (fun a c => 10 * a + (c.toNat - '0'.toNat)) 0

/-- Optional exponent suffix of a Python float literal, applied to an
already-parsed mantissa. -/
def expPart (cs : List Char) (m : ℚ) : Option ℚ :=
  match cs with
  | [] => some m
  | c :: rest =>
    if c = 'e' ∨ c = 'E' then
      let (negE, rest2) := splitSign rest
      let eds := rest2.takeWhile Char.isDigit
      if eds = [] ∨ rest2.dropWhile Char.isDigit ≠ [] then none
      else
        some (if negE then m / 10 ^ natOfDigits eds else m * 10 ^ natOfDigits eds)
    else none

/-- Mantissa-then-exponent parse of an unsigned Python float literal. -/
def pyFloatCore (cs : List Char) : Option ℚ :=
  let ip := cs.takeWhile Char.isDigit
  let r1 := cs.dropWhile Char.isDigit
  match r1 with
  | [] => if ip = [] then none else some (natOfDigits ip)
  | '.' :: r2 =>
    let fp := r2.takeWhile Char.isDigit
    let r3 := r2.dropWhile Char.isDigit
    if ip = [] ∧ fp = [] then none
    else expPart r3 ((natOfDigits ip : ℚ) + (natOfDigits fp : ℚ) / 10 ^ fp.length)
  | _ => if ip = [] then none else expPart r1 (natOfDigits ip)

/-- Embedding of Python `float(s)` on the decimal-literal fragment:
`some` of the exact rational value when `s` is a valid literal, `none`
when `float` would raise `ValueError`. -/
def pyFloat? (cs : List Char) : Option ℚ :=
  let (neg, rest) := splitSign cs
  (pyFloatCore rest).map fun q => if neg then -q else q

/-- Embedding of `Scraper._sanitize_price_string`: clean the string, then
parse it with `float`.  On failure the raised `ValueError` message embeds the
string `float` was given, i.e. the sanitized string, which is the error
payload here. -/
def sanitize_price_string (s : List Char) : Except (List Char) ℚ :=
  match pyFloat? (sanitizeChars s) with
  | some q => Except.ok q
  | none => Except.error (sanitizeChars s)

/-- Embedding of the `Token` dataclass (`credentials.py` and
`src/credentials.py` declare the same two fields). -/
structure Token where
  access_token : String
  token_type : String
  deriving DecidableEq

/-- Construction of a `Token` in the top-level `credentials.py`, the module
`scraper.py` imports: `token_type` has no default, so omitting it (passing
`none`) raises a `TypeError`. -/
def Token.mkMain (a : String) (t? : Option String) : Except String Token :=
  match t? with
  | some t => Except.ok ⟨a, t⟩
  | none => Except.error "TypeError"

/-- Construction of a `Token` in `src/credentials.py`, where `token_type`
defaults to `"Bearer"` when omitted. -/
def Token.mkSrc (a : String) (t? : Option String) : Except String Token :=
  Except.ok ⟨a, t?.getD "Bearer"⟩

/-- Embedding of the `Credentials` dataclass. -/
structure Credentials where
  client_id : String
  client_secret : String
  token : Option Token
  deriving DecidableEq

/-- Embedding of `Scraper._set_token`: assigns a wholly new `Token` built
from the login response's `access_token` and `token_type` fields to
`credentials.token`, replacing any previous one. -/
def set_token (c : Credentials) (access_token token_type : String) : Credentials :=
  { c with token := some ⟨access_token, token_type⟩ }

/-- Embedding of the `Provider` dataclass (`provider.py`). -/
structure Provider where
  id : ℕ
  name : String
  url : String
  html_element : String
  last_accessed : String
  deriving DecidableEq

/-- The network environment a run executes against: the status and payload
every endpoint would answer with.  `pageSelect url sel` is the text of the
first element matching CSS selector `sel` on the page at `url`
(`BeautifulSoup.select_one` followed by `get_text`), or `none` when no
element matches.  `startTime` and `runDuration` embed `datetime.now()` as a
start instant plus the nonnegative time elapsed until finalize. -/
structure Env where
  loginStatus : ℕ
  providersStatus : ℕ
  providersList : List ℕ
  providerStatus : ℕ → ℕ
  providerData : ℕ → Provider
  pageStatus : String → ℕ
  pageSelect : String → String → Option (List Char)
  priceStatus : ℕ → ℕ
  startTime : ℕ
  runDuration : ℕ

/-- One observable effect of the program: an HTTP request it issues
(with the payload parts the claims are about). -/
inductive Event where
  | postLogin
  | getProviders
  | getProvider (id : ℕ)
  | getPage (url : String)
  | postPrice (id : ℕ) (price : ℚ)
  | putLastAccessed (id : ℕ)
  | postRun (startTime endTime : ℕ)
  | sleep (seconds : ℕ)
  deriving DecidableEq

/-- Embedding of `Scraper._scrape_provider` for the provider entry `pid`
taken from the provider list.  Returns the events of this task and whether
the task raised an uncaught exception.  `_get_provider` raises on a non-200
record fetch, and nothing in `_scrape_provider` catches that.  A non-200
page fetch and a missing selector match return after logging.  The
`try`/`except` around the price handling catches the normalizer's
`ValueError`.  `_add_price_for_provider` is called only when `price > 0`
(short-circuit `and`); it returns success iff the status is 200 or 201, and
only then is the `last_accessed` PUT issued. -/
def scrape_provider (env : Env) (pid : ℕ) : List Event × Bool :=
  if env.providerStatus pid ≠ 200 then
    ([Event.getProvider pid], true)
  else if env.pageStatus (env.providerData pid).url ≠ 200 then
    ([Event.getProvider pid, Event.getPage (env.providerData pid).url], false)
  else
    match env.pageSelect (env.providerData pid).url (env.providerData pid).html_element with
    | none => ([Event.getProvider pid, Event.getPage (env.providerData pid).url], false)
    | some text =>
      match sanitize_price_string text with
      | Except.error _ =>
        ([Event.getProvider pid, Event.getPage (env.providerData pid).url], false)
      | Except.ok price =>
        if 0 < price then
          if env.priceStatus (env.providerData pid).id = 200 ∨
              env.priceStatus (env.providerData pid).id = 201 then
            ([Event.getProvider pid, Event.getPage (env.providerData pid).url,
              Event.postPrice (env.providerData pid).id price,
              Event.putLastAccessed (env.providerData pid).id], false)
          else
            ([Event.getProvider pid, Event.getPage (env.providerData pid).url,
              Event.postPrice (env.providerData pid).id price], false)
        else
          ([Event.getProvider pid, Event.getPage (env.providerData pid).url], false)

/-- Embedding of `Scraper._handle_scraping`: `asyncio.gather` over one task
per provider.  All tasks run (gather cancels nothing); the second component
records whether any task raised, in which case the `await` of the gather
re-raises. -/
def handle_scraping (env : Env) : List Event × Bool :=
  (env.providersList.flatMap fun pid => (scrape_provider env pid).1,
   env.providersList.any fun pid => (scrape_provider env pid).2)

/-- Embedding of `Scraper.run`: login, fetch the provider list, scrape all
providers, then post the run record.  The second component is `true` iff the
run completed normally; any uncaught exception (login failure, provider-list
failure, or a raising provider task) aborts before `_post_run`. -/
def Scraper.run (env : Env) : List Event × Bool :=
  if env.loginStatus ≠ 200 then
    ([Event.postLogin], false)
  else if env.providersStatus ≠ 200 then
    ([Event.postLogin, Event.getProviders], false)
  else if (handle_scraping env).2 then
    (Event.postLogin :: Event.getProviders :: (handle_scraping env).1, false)
  else
    (Event.postLogin :: Event.getProviders :: (handle_scraping env).1
      ++ [Event.postRun env.startTime (env.startTime + env.runDuration)], true)

/-- Embedding of `main`'s `while True` loop, observed for finitely many
iterations; the list supplies the environment each successive iteration
executes against.  After a normal run the loop sleeps 3600 seconds and goes
round again; an exception escaping `scraper.run()` is caught nowhere, so it
terminates the process — no sleep, no further iteration. -/
def mainLoop : List Env → List Event
  | [] => []
  | env :: rest =>
    if (Scraper.run env).2 then
      (Scraper.run env).1 ++ Event.sleep 3600 :: mainLoop rest
    else
      (Scraper.run env).1

/-- Recognizes the run-report POST. -/
def isPostRun : Event → Bool
  | Event.postRun _ _ => true
  | _ => false

/-- Recognizes the login POST. -/
def isPostLogin : Event → Bool
  | Event.postLogin => true
  | _ => false

/-- Recognizes the provider-list GET. -/
def isGetProviders : Event → Bool
  | Event.getProviders => true
  | _ => false

/-- Recognizes the sleep between loop iterations. -/
def isSleep : Event → Bool
  | Event.sleep _ => true
  | _ => false

/-- Strings built only from the removed substrings of the cleaning chain:
`"kr."`, `",-"`, `"."` and `" "`. -/
inductive TokStr : List Char → Prop
  | nil : TokStr []
  | kr (s : List Char) : TokStr s → TokStr ('k' :: 'r' :: '.' :: s)
  | cm (s : List Char) : TokStr s → TokStr (',' :: '-' :: s)
  | dot (s : List Char) : TokStr s → TokStr ('.' :: s)
  | sp (s : List Char) : TokStr s → TokStr (' ' :: s)

/-- Strings built only from `",-"`, `"."` and `" "` (after `"kr."`-removal). -/
inductive TokStr1 : List Char → Prop
  | nil : TokStr1 []
  | cm (s : List Char) : TokStr1 s → TokStr1 (',' :: '-' :: s)
  | dot (s : List Char) : TokStr1 s → TokStr1 ('.' :: s)
  | sp (s : List Char) : TokStr1 s → TokStr1 (' ' :: s)

/-- Strings built only from `"."` and `" "` (after `",-"`-removal). -/
inductive TokStr2 : List Char → Prop
  | nil : TokStr2 []
  | dot (s : List Char) : TokStr2 s → TokStr2 ('.' :: s)
  | sp (s : List Char) : TokStr2 s → TokStr2 (' ' :: s)

/-- Strings built only from `" "` (after `"."`-removal). -/
inductive TokStr3 : List Char → Prop
  | nil : TokStr3 []
  | sp (s : List Char) : TokStr3 s → TokStr3 (' ' :: s)

/-- Digit groups separated by single `"."` characters, e.g.
`joinDots [g1, g2, g3] = g1 ++ "." ++ g2 ++ "." ++ g3`. -/
def joinDots : List (List Char) → List Char
  | [] => []
  | [g] => g
  | g :: gs => g ++ '.' :: joinDots gs

/-- Two healthy provider records on distinct pages; page 1 carries an
unparsable price text, page 2 a valid one. -/
def envA : Env :=
  { loginStatus := 200, providersStatus := 200, providersList := [1, 2],
    providerStatus := fun _ => 200,
    providerData := fun pid =>
      if pid = 1 then ⟨1, "A", "uA", "sA", "t"⟩ else ⟨2, "B", "uB", "sB", "t"⟩,
    pageStatus := fun _ => 200,
    pageSelect := fun u _ => if u = "uA" then some "abc".toList else some "12 kr.".toList,
    priceStatus := fun _ => 200,
    startTime := 0, runDuration := 1 }

/-- Provider 1's record fetch answers 500; provider 2 is fully healthy. -/
def envB : Env :=
  { loginStatus := 200, providersStatus := 200, providersList := [1, 2],
    providerStatus := fun pid => if pid = 1 then 500 else 200,
    providerData := fun pid =>
      if pid = 1 then ⟨1, "A", "uA", "sA", "t"⟩ else ⟨2, "B", "uB", "sB", "t"⟩,
    pageStatus := fun _ => 200,
    pageSelect := fun _ _ => some "12 kr.".toList,
    priceStatus := fun _ => 200,
    startTime := 0, runDuration := 1 }

/-- The login endpoint answers 401. -/
def envC2bad : Env :=
  { loginStatus := 401, providersStatus := 200, providersList := [1],
    providerStatus := fun _ => 200,
    providerData := fun _ => ⟨1, "A", "uA", "sA", "t"⟩,
    pageStatus := fun _ => 200,
    pageSelect := fun _ _ => some "12 kr.".toList,
    priceStatus := fun _ => 200,
    startTime := 0, runDuration := 1 }

/-- A fully healthy single-provider world. -/
def envC2good : Env :=
  { loginStatus := 200, providersStatus := 200, providersList := [1],
    providerStatus := fun _ => 200,
    providerData := fun _ => ⟨1, "A", "uA", "sA", "t"⟩,
    pageStatus := fun _ => 200,
    pageSelect := fun _ _ => some "12 kr.".toList,
    priceStatus := fun _ => 200,
    startTime := 0, runDuration := 1 }

/-- A single provider whose page yields the integer price 12. -/
def envC4w : Env :=
  { loginStatus := 200, providersStatus := 200, providersList := [2],
    providerStatus := fun _ => 200,
    providerData := fun _ => ⟨2, "B", "uB", "sB", "t"⟩,
    pageStatus := fun _ => 200,
    pageSelect := fun _ _ => some "12 kr.".toList,
    priceStatus := fun _ => 200,
    startTime := 0, runDuration := 1 }

/-- No providers at all: the run still reports its timing. -/
def envC7w : Env :=
  { loginStatus := 200, providersStatus := 200, providersList := [],
    providerStatus := fun _ => 200,
    providerData := fun _ => ⟨0, "", "", "", ""⟩,
    pageStatus := fun _ => 200,
    pageSelect := fun _ _ => none,
    priceStatus := fun _ => 200,
    startTime := 7, runDuration := 3 }

theorem remKr_cons_ne (c : Char) (s : List Char) (h : c ≠ 'k') :
    remKr (c :: s) = c :: remKr s := by
  match s with
  | [] => simp [remKr]
  | [d] => simp [remKr, h]
  | d :: e :: t => simp [remKr, h]

theorem remKr_kr (s : List Char) : remKr ('k' :: 'r' :: '.' :: s) = remKr s := by
  simp [remKr]

theorem remCm_cons_ne (c : Char) (s : List Char) (h : c ≠ ',') :
    remCm (c :: s) = c :: remCm s := by
  match s with
  | [] => simp [remCm]
  | d :: t => simp [remCm, h]

theorem remCm_cm (s : List Char) : remCm (',' :: '-' :: s) = remCm s := by
  simp [remCm]

theorem tokStr1_remKr (s : List Char) (h : TokStr s) : TokStr1 (remKr s) := by
  induction h with
  | nil => exact TokStr1.nil
  | kr t _ ih => rw [remKr_kr]; exact ih
  | cm t _ ih =>
    rw [remKr_cons_ne _ _ (by decide), remKr_cons_ne _ _ (by decide)]
    exact TokStr1.cm _ ih
  | dot t _ ih => rw [remKr_cons_ne _ _ (by decide)]; exact TokStr1.dot _ ih
  | sp t _ ih => rw [remKr_cons_ne _ _ (by decide)]; exact TokStr1.sp _ ih

theorem tokStr2_remCm (s : List Char) (h : TokStr1 s) : TokStr2 (remCm s) := by
  induction h with
  | nil => exact TokStr2.nil
  | cm t _ ih => rw [remCm_cm]; exact ih
  | dot t _ ih => rw [remCm_cons_ne _ _ (by decide)]; exact TokStr2.dot _ ih
  | sp t _ ih => rw [remCm_cons_ne _ _ (by decide)]; exact TokStr2.sp _ ih

theorem tokStr3_remDot (s : List Char) (h : TokStr2 s) : TokStr3 (remDot s) := by
  induction h with
  | nil => exact TokStr3.nil
  | dot t _ ih => simpa [remDot] using ih
  | sp t _ ih => simpa [remDot] using TokStr3.sp _ ih

theorem commaToDot_tokStr3 (s : List Char) (h : TokStr3 s) : commaToDot s = s := by
  induction h with
  | nil => rfl
  | sp t _ ih => simp [commaToDot, ih]

theorem remSp_tokStr3 (s : List Char) (h : TokStr3 s) : remSp s = [] := by
  induction h with
  | nil => rfl
  | sp t _ ih => simpa [remSp] using ih

theorem sanitizeChars_tokStr (s : List Char) (h : TokStr s) : sanitizeChars s = [] := by
  have h3 : TokStr3 (remDot (remCm (remKr s))) :=
    tokStr3_remDot _ (tokStr2_remCm _ (tokStr1_remKr _ h))
  unfold sanitizeChars
  rw [commaToDot_tokStr3 _ h3]
  exact remSp_tokStr3 _ h3

theorem isDigit_ne_of (c d : Char) (h : c.isDigit = true) (hd : d.isDigit = false) :
    c ≠ d := by
  rintro rfl
  rw [h] at hd
  cases hd

theorem pyFloat_digits (ds : List Char) (hne : ds ≠ [])
    (hd : ∀ c ∈ ds, c.isDigit = true) :
    pyFloat? ds = some ((natOfDigits ds : ℕ) : ℚ) := by
  match ds, hne with
  | d :: t, _ =>
    have hdd : d.isDigit = true := hd d (by simp)
    have h1 : splitSign (d :: t) = (false, d :: t) := by
      have h2 := isDigit_ne_of d '-' hdd (by decide)
      have h3 := isDigit_ne_of d '+' hdd (by decide)
      simp [splitSign, h2, h3]
    have htake : (d :: t).takeWhile Char.isDigit = d :: t :=
      List.takeWhile_eq_self_iff.mpr hd
    have hdrop : (d :: t).dropWhile Char.isDigit = [] :=
      List.dropWhile_eq_nil_iff.mpr hd
    simp [pyFloat?, pyFloatCore, h1, htake, hdrop]

theorem remKr_eq_self (s : List Char) (h : ∀ c ∈ s, c ≠ 'k') : remKr s = s := by
  induction s with
  | nil => rfl
  | cons c t ih =>
    rw [remKr_cons_ne c t (h c (by simp))]
    rw [ih fun x hx => h x (by simp [hx])]

theorem remCm_eq_self (s : List Char) (h : ∀ c ∈ s, c ≠ ',') : remCm s = s := by
  induction s with
  | nil => rfl
  | cons c t ih =>
    rw [remCm_cons_ne c t (h c (by simp))]
    rw [ih fun x hx => h x (by simp [hx])]

theorem remDot_eq_filter (s : List Char) :
    remDot s = s.filter fun c => decide (c ≠ '.') := by
  induction s with
  | nil => rfl
  | cons c t ih =>
    by_cases hc : c = '.'
    · subst hc
      simp [remDot, ih]
    · simp [remDot, hc, ih]

theorem commaToDot_eq_self (s : List Char) (h : ∀ c ∈ s, c ≠ ',') :
    commaToDot s = s := by
  induction s with
  | nil => rfl
  | cons c t ih =>
    simp [commaToDot, h c (by simp)]
    exact ih fun x hx => h x (by simp [hx])

theorem remSp_eq_self (s : List Char) (h : ∀ c ∈ s, c ≠ ' ') : remSp s = s := by
  induction s with
  | nil => rfl
  | cons c t ih =>
    simp [remSp, h c (by simp)]
    exact ih fun x hx => h x (by simp [hx])

theorem sanitizeChars_digit_dot (s : List Char)
    (h : ∀ c ∈ s, c.isDigit = true ∨ c = '.') :
    sanitizeChars s = s.filter fun c => decide (c ≠ '.') := by
  have hk : ∀ c ∈ s, c ≠ 'k' := by
    intro c hc
    rcases h c hc with hd | hd
    · exact isDigit_ne_of c 'k' hd (by decide)
    · subst hd; decide
  have hcm : ∀ c ∈ s, c ≠ ',' := by
    intro c hc
    rcases h c hc with hd | hd
    · exact isDigit_ne_of c ',' hd (by decide)
    · subst hd; decide
  have hfilter : ∀ c ∈ s.filter (fun c => decide (c ≠ '.')), c.isDigit = true := by
    intro c hc
    rw [List.mem_filter] at hc
    rcases h c hc.1 with hd | hd
    · exact hd
    · subst hd; simp at hc
  unfold sanitizeChars
  rw [remKr_eq_self s hk, remCm_eq_self s hcm, remDot_eq_filter s]
  rw [commaToDot_eq_self _ fun c hc => isDigit_ne_of c ',' (hfilter c hc) (by decide)]
  rw [remSp_eq_self _ fun c hc => isDigit_ne_of c ' ' (hfilter c hc) (by decide)]

theorem filter_joinDots (groups : List (List Char))
    (h : ∀ g ∈ groups, ∀ c ∈ g, c.isDigit = true) :
    ((joinDots groups).filter fun c => decide (c ≠ '.')) = groups.flatten := by
  induction groups with
  | nil => rfl
  | cons g gs ih =>
    have hg : ∀ c ∈ g, (fun c => decide (c ≠ '.')) c = true := by
      intro c hc
      simp only [decide_eq_true_eq]
      exact isDigit_ne_of c '.' (h g (by simp) c hc) (by decide)
    cases gs with
    | nil => simpa [joinDots] using List.filter_eq_self.mpr hg
    | cons g2 gs2 =>
      have hrest : ∀ g' ∈ g2 :: gs2, ∀ c ∈ g', c.isDigit = true := by
        intro g' hg' c hc
        exact h g' (by simp [hg']) c hc
      have hdot : List.filter (fun c => decide (c ≠ '.')) ('.' :: joinDots (g2 :: gs2))
          = List.filter (fun c => decide (c ≠ '.')) (joinDots (g2 :: gs2)) := by
        rw [List.filter_cons]
        simp
      simp only [joinDots, List.filter_append, List.flatten_cons]
      rw [List.filter_eq_self.mpr hg, hdot, ih hrest]
      simp [List.flatten]

theorem mem_joinDots (groups : List (List Char)) (c : Char) (hc : c ∈ joinDots groups) :
    c.isDigit = true ∨ c = '.' ∨ ∃ g ∈ groups, c ∈ g := by
  induction groups with
  | nil => cases hc
  | cons g gs ih =>
    cases gs with
    | nil =>
      right; right
      exact ⟨g, by simp, by simpa [joinDots] using hc⟩
    | cons g2 gs2 =>
      simp only [joinDots, List.mem_append, List.mem_cons] at hc
      rcases hc with hc | hc | hc
      · right; right; exact ⟨g, by simp, hc⟩
      · right; left; exact hc
      · rcases ih hc with h1 | h1 | ⟨g', hg', hcg⟩
        · left; exact h1
        · right; left; exact h1
        · right; right; exact ⟨g', by simp [hg'], hcg⟩

theorem scrape_provider_countP_isPostRun (env : Env) (pid : ℕ) :
    ((scrape_provider env pid).1).countP isPostRun = 0 := by
  unfold scrape_provider
  repeat' split
  all_goals simp [isPostRun, List.countP_cons]

theorem handle_scraping_countP_isPostRun (env : Env) :
    ((handle_scraping env).1).countP isPostRun = 0 := by
  unfold handle_scraping
  simp only []
  induction env.providersList with
  | nil => rfl
  | cons pid rest ih =>
    simp [List.flatMap_cons, List.countP_append, scrape_provider_countP_isPostRun, ih]

theorem scrape_provider_not_raised (env : Env) (pid : ℕ)
    (h : env.providerStatus pid = 200) : (scrape_provider env pid).2 = false := by
  unfold scrape_provider
  repeat' split
  all_goals simp_all

theorem getProvider_mem_scrape_provider (env : Env) (pid : ℕ) :
    Event.getProvider pid ∈ (scrape_provider env pid).1 := by
  unfold scrape_provider
  repeat' split
  all_goals simp

theorem getPage_mem_scrape_provider (env : Env) (pid : ℕ)
    (h : env.providerStatus pid = 200) :
    Event.getPage (env.providerData pid).url ∈ (scrape_provider env pid).1 := by
  unfold scrape_provider
  repeat' split
  all_goals simp_all

theorem postPrice_mem_scrape_provider (env : Env) (pid i : ℕ) (q : ℚ)
    (h : Event.postPrice i q ∈ (scrape_provider env pid).1) :
    i = (env.providerData pid).id ∧
      ∃ t, env.pageSelect (env.providerData pid).url (env.providerData pid).html_element
          = some t ∧ sanitize_price_string t = Except.ok q ∧ 0 < q := by
  unfold scrape_provider at h
  repeat' split at h
  all_goals simp_all

theorem putLastAccessed_mem_scrape_provider_iff (env : Env) (pid : ℕ) :
    Event.putLastAccessed (env.providerData pid).id ∈ (scrape_provider env pid).1 ↔
      env.providerStatus pid = 200 ∧
      env.pageStatus (env.providerData pid).url = 200 ∧
      ∃ t, env.pageSelect (env.providerData pid).url (env.providerData pid).html_element
          = some t ∧
        ∃ q, sanitize_price_string t = Except.ok q ∧ 0 < q ∧
          (env.priceStatus (env.providerData pid).id = 200 ∨
            env.priceStatus (env.providerData pid).id = 201) := by
  unfold scrape_provider
  repeat' split
  all_goals simp_all

theorem handle_scraping_not_raised (env : Env)
    (h : ∀ pid ∈ env.providersList, env.providerStatus pid = 200) :
    (handle_scraping env).2 = false := by
  unfold handle_scraping
  simp only [List.any_eq_false]
  intro pid hpid
  rw [scrape_provider_not_raised env pid (h pid hpid)]
  simp

theorem run_completed_trace (env : Env) (h : (Scraper.run env).2 = true) :
    (Scraper.run env).1 = Event.postLogin :: Event.getProviders :: (handle_scraping env).1
      ++ [Event.postRun env.startTime (env.startTime + env.runDuration)] := by
  unfold Scraper.run at h ⊢
  split_ifs at h ⊢
  all_goals simp_all

theorem postPrice_mem_run (env : Env) (i : ℕ) (q : ℚ)
    (h : Event.postPrice i q ∈ (Scraper.run env).1) : 0 < q := by
  have hmem : ∃ pid, Event.postPrice i q ∈ (scrape_provider env pid).1 := by
    unfold Scraper.run at h
    split_ifs at h
    all_goals simp_all [handle_scraping, List.mem_flatMap]
    · obtain ⟨pid, -, hm⟩ := h
      exact ⟨pid, hm⟩
    · obtain ⟨pid, -, hm⟩ := h
      exact ⟨pid, hm⟩
  obtain ⟨pid, hm⟩ := hmem
  obtain ⟨-, t, hsel, hok, hq⟩ := postPrice_mem_scrape_provider env pid i q hm
  exact hq

/-- C3: the price normalizer implements the specified cleaning algorithm:
`"12.345,-kr."` normalizes to `12345.0`, `"9,99 kr."` to `9.99`, and
`"abc"` fails with a ParseError. -/
theorem claim_c3_normalizer_examples :
    sanitize_price_string "12.345,-kr.".toList = Except.ok 12345 ∧
    sanitize_price_string "9,99 kr.".toList = Except.ok (999 / 100) ∧
    sanitize_price_string "abc".toList = Except.error "abc".toList := by
  refine ⟨rfl, ?_, rfl⟩
  have h : sanitize_price_string "9,99 kr.".toList
      = Except.ok (((9 : ℕ) : ℚ) + ((99 : ℕ) : ℚ) / 10 ^ 2) := rfl
  rw [h]
  norm_num

/-- C5 counterexample: for input `"9,9,9 kr."` the normalizer fails, but the
error carries the cleaned string `"9.9.9"`, not the original input — the
original string appears nowhere in the `ValueError` that `float` raises and
`_sanitize_price_string` re-wraps. -/
theorem claim_c5_cex :
    sanitize_price_string "9,9,9 kr.".toList = Except.error "9.9.9".toList ∧
    "9.9.9".toList ≠ "9,9,9 kr.".toList :=
  ⟨rfl, by decide⟩

/-- C5 amended: for every input whose cleaned form is not numeric, the
normalizer fails with a ParseError carrying the cleaned (sanitized) string;
the original input is only recoverable when cleaning leaves it unchanged. -/
theorem claim_c5_amended (s : List Char) (h : pyFloat? (sanitizeChars s) = none) :
    sanitize_price_string s = Except.error (sanitizeChars s) := by
  unfold sanitize_price_string
  rw [h]

/-- Witness for C5 amended at the concrete input `"a b"`, whose cleaned form
`"ab"` differs from the original. -/
theorem claim_c5_witness :
    pyFloat? (sanitizeChars "a b".toList) = none ∧
    sanitize_price_string "a b".toList = Except.error (sanitizeChars "a b".toList) :=
  ⟨rfl, claim_c5_amended _ rfl⟩

/-- C9: every input whose cleaned form is empty — in particular every string
built only from the removed substrings `"kr."`, `",-"`, `"."` and `" "`,
the empty string included — makes the normalizer fail with a ParseError
instead of returning a number. -/
theorem claim_c9_empty_clean (s : List Char) :
    (sanitizeChars s = [] → sanitize_price_string s = Except.error []) ∧
    (TokStr s → sanitize_price_string s = Except.error []) := by
  constructor
  · intro h
    unfold sanitize_price_string
    rw [h]
    rfl
  · intro h
    have h0 := sanitizeChars_tokStr s h
    unfold sanitize_price_string
    rw [h0]
    rfl

/-- Witness for C9 at the concrete inputs `"kr. "` (a token string) and the
empty string. -/
theorem claim_c9_witness :
    sanitize_price_string ['k', 'r', '.', ' '] = Except.error [] ∧
    sanitize_price_string [] = Except.error [] :=
  ⟨(claim_c9_empty_clean _).2 (TokStr.kr _ (TokStr.sp _ TokStr.nil)),
   (claim_c9_empty_clean _).1 rfl⟩

/-- C10: every `"."` is deleted before parsing, so `"12.5"` normalizes to
`125.0` rather than `12.5`; on digit-and-dot strings cleaning is exactly
dot-filtering, and digit groups separated by `"."` parse to the
concatenation of the groups. -/
theorem claim_c10_dot_removal :
    sanitize_price_string "12.5".toList = Except.ok 125 ∧
    sanitize_price_string "12.5".toList ≠ Except.ok (125 / 10) ∧
    (∀ s : List Char, (∀ c ∈ s, c.isDigit = true ∨ c = '.') →
      sanitizeChars s = s.filter fun c => decide (c ≠ '.')) ∧
    (∀ groups : List (List Char), (∀ g ∈ groups, ∀ c ∈ g, c.isDigit = true) →
      groups.flatten ≠ [] →
      sanitize_price_string (joinDots groups)
        = Except.ok ((natOfDigits groups.flatten : ℕ) : ℚ)) := by
  refine ⟨rfl, ?_, sanitizeChars_digit_dot, ?_⟩
  · have h : sanitize_price_string "12.5".toList = Except.ok 125 := rfl
    rw [h]
    simp only [ne_eq, Except.ok.injEq]
    norm_num
  · intro groups hg hne
    have hcd : ∀ c ∈ joinDots groups, c.isDigit = true ∨ c = '.' := by
      intro c hc
      rcases mem_joinDots groups c hc with h1 | h1 | ⟨g, hgg, hcg⟩
      · left; exact h1
      · right; exact h1
      · left; exact hg g hgg c hcg
    have hfl : ∀ c ∈ groups.flatten, c.isDigit = true := by
      intro c hc
      obtain ⟨g, hgg, hcg⟩ := List.mem_flatten.mp hc
      exact hg g hgg c hcg
    unfold sanitize_price_string
    rw [sanitizeChars_digit_dot _ hcd, filter_joinDots groups hg,
      pyFloat_digits groups.flatten hne hfl]

/-- Witness for C10 at the concrete inputs `"1.2"` and the digit groups
`["12", "5"]`. -/
theorem claim_c10_witness :
    sanitizeChars ['1', '.', '2'] = (['1', '.', '2'].filter fun c => decide (c ≠ '.')) ∧
    sanitize_price_string (joinDots [['1', '2'], ['5']])
      = Except.ok ((natOfDigits [['1', '2'], ['5']].flatten : ℕ) : ℚ) :=
  ⟨claim_c10_dot_removal.2.2.1 _ (by decide),
   claim_c10_dot_removal.2.2.2 _ (by decide) (by decide)⟩

/-- C4: a price POST happens only for a provider whose selected text
normalized successfully to a strictly positive price — non-positive or
unparsable prices never reach `_add_price_for_provider` — while the
normalizer itself accepts `0` and negative values (the skip is the caller's
policy). -/
theorem claim_c4_skip_nonpositive :
    (∀ (env : Env) (pid i : ℕ) (q : ℚ),
      Event.postPrice i q ∈ (scrape_provider env pid).1 →
        i = (env.providerData pid).id ∧
        ∃ t, env.pageSelect (env.providerData pid).url (env.providerData pid).html_element
            = some t ∧ sanitize_price_string t = Except.ok q ∧ 0 < q) ∧
    (∀ (env : Env) (i : ℕ) (q : ℚ),
      Event.postPrice i q ∈ (Scraper.run env).1 → 0 < q) ∧
    sanitize_price_string ['0'] = Except.ok 0 ∧
    sanitize_price_string ['-', '5'] = Except.ok (-5) :=
  ⟨postPrice_mem_scrape_provider, postPrice_mem_run, rfl, rfl⟩

/-- Witness for C4: in the concrete world `envC4w` the run posts the price
12 for provider 2, and the theorem recovers its positivity and its origin. -/
theorem claim_c4_witness :
    (0 : ℚ) < 12 ∧ (2 : ℕ) = (envC4w.providerData 2).id :=
  ⟨claim_c4_skip_nonpositive.2.1 envC4w 2 12 (by decide),
   (claim_c4_skip_nonpositive.1 envC4w 2 2 12 (by decide)).1⟩

/-- C6: the `last_accessed` PUT for a provider is issued exactly when the
provider's record and page both loaded, the selector matched, the normalized
price is strictly positive, and the price POST answered 200 or 201. -/
theorem claim_c6_last_accessed_iff (env : Env) (pid : ℕ) :
    Event.putLastAccessed (env.providerData pid).id ∈ (scrape_provider env pid).1 ↔
      env.providerStatus pid = 200 ∧
      env.pageStatus (env.providerData pid).url = 200 ∧
      ∃ t, env.pageSelect (env.providerData pid).url (env.providerData pid).html_element
          = some t ∧
        ∃ q, sanitize_price_string t = Except.ok q ∧ 0 < q ∧
          (env.priceStatus (env.providerData pid).id = 200 ∨
            env.priceStatus (env.providerData pid).id = 201) :=
  putLastAccessed_mem_scrape_provider_iff env pid

/-- C7: a run that completes its scrape phase posts exactly one run record,
whose start time is the instant recorded at the beginning of the run, whose
end time is the instant recorded at finalize, and start ≤ end. -/
theorem claim_c7_run_report (env : Env) (h : (Scraper.run env).2 = true) :
    ((Scraper.run env).1).countP isPostRun = 1 ∧
    ∀ a b, Event.postRun a b ∈ (Scraper.run env).1 →
      a = env.startTime ∧ b = env.startTime + env.runDuration ∧ a ≤ b := by
  rw [run_completed_trace env h]
  constructor
  · simp [List.countP_cons, List.countP_append, handle_scraping_countP_isPostRun,
      isPostRun]
  · intro a b hab
    simp only [List.mem_cons, List.mem_append, List.mem_singleton] at hab
    rcases hab with (h1 | h1 | h1) | h2 | h1
    · simp at h1
    · simp at h1
    · exfalso
      have h0 := List.countP_eq_zero.mp (handle_scraping_countP_isPostRun env) _ h1
      exact h0 rfl
    · injection h2 with ha hb
      subst ha
      subst hb
      exact ⟨rfl, rfl, Nat.le_add_right _ _⟩
    · simp at h1

/-- Witness for C7 in the concrete world `envC7w` (start 7, elapsed 3). -/
theorem claim_c7_witness :
    ((Scraper.run envC7w).1).countP isPostRun = 1 ∧ (7 : ℕ) ≤ 10 :=
  ⟨(claim_c7_run_report envC7w rfl).1,
   ((claim_c7_run_report envC7w rfl).2 7 10 (by decide)).2.2⟩

/-- C1 counterexample: in `envB` provider 1's record fetch (one of the
provider task's HTTP requests) answers 500; the exception is not caught at
the task boundary, `asyncio.gather` re-raises it, and the run aborts without
ever posting the run record — the finalize/report phase is prevented. -/
theorem claim_c1_cex :
    (Scraper.run envB).2 = false ∧
    ((Scraper.run envB).1).countP isPostRun = 0 ∧
    envB.providerStatus 1 = 500 := by
  refine ⟨rfl, ?_, rfl⟩
  decide

/-- C1 amended: failures the provider task catches — a non-200 page fetch, a
missing selector match, a price parse error — do not prevent the other
providers from being processed nor the finalize/report phase; but a non-200
on the provider-record fetch (`GET providers/{id}`) raises out of the task,
so isolation holds only when every provider-record fetch answers 200. -/
theorem claim_c1_caught_failures_isolated (env : Env)
    (hl : env.loginStatus = 200) (hp : env.providersStatus = 200)
    (hall : ∀ pid ∈ env.providersList, env.providerStatus pid = 200) :
    (Scraper.run env).2 = true ∧
    (∀ pid ∈ env.providersList,
      Event.getProvider pid ∈ (Scraper.run env).1 ∧
      Event.getPage (env.providerData pid).url ∈ (Scraper.run env).1) ∧
    ((Scraper.run env).1).countP isPostRun = 1 := by
  have hdone : (Scraper.run env).2 = true := by
    unfold Scraper.run
    split_ifs with h1 h2 h3
    · exact absurd hl h1
    · exact absurd hp h2
    · rw [handle_scraping_not_raised env hall] at h3
      cases h3
    · rfl
  refine ⟨hdone, ?_, ?_⟩
  · intro pid hpid
    rw [run_completed_trace env hdone]
    constructor
    · have hm : Event.getProvider pid ∈ (handle_scraping env).1 := by
        unfold handle_scraping
        exact List.mem_flatMap.mpr ⟨pid, hpid, getProvider_mem_scrape_provider env pid⟩
      simp [hm]
    · have hm : Event.getPage (env.providerData pid).url ∈ (handle_scraping env).1 := by
        unfold handle_scraping
        exact List.mem_flatMap.mpr
          ⟨pid, hpid, getPage_mem_scrape_provider env pid (hall pid hpid)⟩
      simp [hm]
  · rw [run_completed_trace env hdone]
    simp [List.countP_cons, List.countP_append, handle_scraping_countP_isPostRun,
      isPostRun]

/-- Witness for C1 amended: in `envA` provider 1's price text is unparsable,
yet the run completes and both providers were processed. -/
theorem claim_c1_witness :
    (Scraper.run envA).2 = true ∧
    Event.getProvider 1 ∈ (Scraper.run envA).1 ∧
    Event.getProvider 2 ∈ (Scraper.run envA).1 := by
  have h := claim_c1_caught_failures_isolated envA rfl rfl (by decide)
  exact ⟨h.1, (h.2.1 1 (by decide)).1, (h.2.1 2 (by decide)).1⟩

/-- C2 counterexample: with the login endpoint answering 401 the first
iteration issues only the login POST — no provider listing, no scraping —
but the loop does not sleep and never starts the second iteration, even
though that iteration's world (`envC2good`) would have completed a full run:
the uncaught exception terminates the process instead of retrying. -/
theorem claim_c2_cex :
    mainLoop [envC2bad, envC2good] = [Event.postLogin] ∧
    (mainLoop [envC2bad, envC2good]).countP isSleep = 0 ∧
    (mainLoop [envC2bad, envC2good]).countP isPostLogin = 1 ∧
    (Scraper.run envC2good).2 = true := by
  refine ⟨?_, ?_, ?_, ?_⟩ <;> decide

/-- C2 amended: when authentication fails, the run aborts before any
provider listing or scrape call; the exception then escapes `main`'s
`while True` loop uncaught, so the process terminates without sleeping and
without any further iteration. -/
theorem claim_c2_auth_failure_terminates (env : Env) (rest : List Env)
    (h : env.loginStatus ≠ 200) :
    mainLoop (env :: rest) = [Event.postLogin] := by
  have hrun : Scraper.run env = ([Event.postLogin], false) := by
    unfold Scraper.run
    rw [if_pos h]
  unfold mainLoop
  rw [hrun]
  simp

/-- Witness for C2 amended at the concrete world `envC2bad` (login 401)
followed by a healthy world that is never reached. -/
theorem claim_c2_witness : mainLoop [envC2bad, envC2bad] = [Event.postLogin] :=
  claim_c2_auth_failure_terminates envC2bad [envC2bad] (by decide)

/-- C8 counterexample: in the `credentials.py` that `scraper.py` imports,
`Token` has no default for `token_type`: construction without it raises a
TypeError instead of producing a `"Bearer"` token. -/
theorem claim_c8_cex :
    Token.mkMain "tok" none = Except.error "TypeError" ∧
    Token.mkMain "tok" none ≠ Except.ok ⟨"tok", "Bearer"⟩ := by
  refine ⟨rfl, ?_⟩
  decide

/-- C8 amended: the `"Bearer"` default exists only in `src/credentials.py`;
in the top-level `credentials.py` used by the scraper, `token_type` is
required.  A token is never mutated after construction: `_set_token`
replaces `credentials.token` wholesale with a freshly built `Token`, leaving
the other credential fields unchanged. -/
theorem claim_c8_token_default :
    (∀ a : String, Token.mkSrc a none = Except.ok ⟨a, "Bearer"⟩) ∧
    (∀ a : String, Token.mkMain a none = Except.error "TypeError") ∧
    (∀ (c : Credentials) (acc ty : String),
      (set_token c acc ty).token = some ⟨acc, ty⟩ ∧
      (set_token c acc ty).client_id = c.client_id ∧
      (set_token c acc ty).client_secret = c.client_secret) :=
  ⟨fun _ => rfl, fun _ => rfl, fun _ _ _ => ⟨rfl, rfl, rfl⟩⟩
